import Mathlib

/-!
Shallow embedding of the LTV service layer from `12/ltv_service.py` and
`12/ltv_service_api.py`.

Python strings used as phone numbers are modelled as `List Char`; Python's
unbounded `int` is modelled as `Int`.  Exceptions are modelled with
`Except Err`; the external aerospike client is modelled by an explicit
store state (an ordered association list of records) together with a
connection flag on the `Client` wrapper (`none` = `_client is None`,
`some b` = an underlying client object whose `is_connected()` returns `b`).
Definitions shared verbatim by both source files are declared once; the
parts where the files differ (the `handler` accessor, `is_closed`, the
record-access functions and the public surface) live in the namespaces
`LtvService` and `LtvServiceApi` respectively.
-/

/-- Python `str` values that flow through the phone pipeline, as lists of
characters. -/
abbrev PyStr := List Char

/-- Exception classes raised by the two modules.  `clientOptionExists`,
`clientConnectError`, `wrongNumberFormat`, `wrongCustomerID`, `wrongLTV`
are common to both files; `clientHandlerUnavailable` is raised only by
`ltv_service.py` and `aerospikeClientUnavailable` only by
`ltv_service_api.py`.  `attributeError` models Python's builtin
`AttributeError` (attribute access on `None`); `assertionError` models a
failed `assert`. -/
inductive Err where
  | clientOptionExists (option : String)
  | clientConnectError
  | clientHandlerUnavailable
  | aerospikeClientUnavailable
  | wrongNumberFormat (msg : String)
  | wrongCustomerID (msg : String)
  | wrongLTV (msg : String)
  | attributeError
  | assertionError (msg : String)
deriving DecidableEq, Repr

/-- State of the `Client` wrapper class (identical fields in both files):
`config` is the `_config` dict (insertion-ordered key/value pairs, values
of arbitrary type `α` modelling Python `Any`), `conn` is the `_client`
attribute: `none` when `_client is None`, `some b` when an underlying
aerospike client exists and `is_connected()` returns `b`. -/
structure Client (α : Type) where
  config : List (String × α)
  conn : Option Bool
deriving Repr

/-- `Client.with_option` (identical in both files): raise
`ClientOptionExists(option)` when the key is already in `_config`,
otherwise insert it and return the client. -/
def Client.with_option {α : Type} (c : Client α) (option : String) (value : α) :
    Except Err (Client α) :=
  if (c.config.map Prod.fst).contains option then
    .error (.clientOptionExists option)
  else
    .ok { c with config := c.config ++ [(option, value)] }

/-- `Client.with_options` (identical in both files): fold `with_option`
over the supplied key/value pairs in order. -/
def Client.with_options {α : Type} (c : Client α) (options : List (String × α)) :
    Except Err (Client α) :=
  options.foldlM (fun acc kv => acc.with_option kv.1 kv.2) c

/-- `Client.close` (identical in both files).  The guard is
`if self.is_available and self._client.is_connected()`: `self.is_available`
is the *method object* (always truthy, never called), so the guard reduces
to `self._client.is_connected()` — which raises `AttributeError` when
`_client is None`. -/
def Client.close {α : Type} (c : Client α) : Except Err (Client α) :=
  match c.conn with
  | none => .error .attributeError
  | some b => if b then .ok { c with conn := some false } else .ok c

/-- `Client.is_available` (identical in both files): `_client is not None`. -/
def Client.is_available {α : Type} (c : Client α) : Bool :=
  c.conn.isSome

/-- A phone policy's `check` method: maps a phone string to
`(valid, error_message)`. -/
abbrev PhoneCheck := PyStr → Bool × String

/-- `PhonePolicyPipeline.check` (identical in both files): run the checks
in order and stop at the first failure, propagating its reason; return
`(True, "")` when every check passes. -/
def PhonePolicyPipeline : List PhoneCheck → PhoneCheck
  | [], _ => (true, "")
  | policy :: rest, phone =>
    let r := policy phone
    if r.1 then PhonePolicyPipeline rest phone else r

/-- `NonEmptyPhone.check`: Python truthiness of the string, i.e. fail on
the empty string. -/
def NonEmptyPhone.check : PhoneCheck := fun phone =>
  if phone = [] then (false, "empty phone number") else (true, "")

/-- `OnlyPrintablePhone.check`: `phone.isprintable()`.  Python's builtin
character printability test is external to the repository, so it is passed
in as a parameter `ipr`; `str.isprintable()` holds exactly when every
character is printable. -/
def OnlyPrintablePhone.check (ipr : Char → Bool) : PhoneCheck := fun phone =>
  if phone.all ipr then (true, "") else
    (false, "non-printable characters in phone number")

/-- `PhoneNumber.__init__` (identical in both files): run the policy's
check once; on failure raise `WrongNumberFormat` carrying the reason; on
success freeze the string. -/
def PhoneNumber (policy : PhoneCheck) (phone : PyStr) : Except Err PyStr :=
  let r := policy phone
  if r.1 then .ok phone else .error (.wrongNumberFormat r.2)

/-- `CustomerID.__init__` (identical in both files): raise
`WrongCustomerID(str(customer_id))` when the integer is less than 1,
otherwise keep it. -/
def CustomerID (customer_id : Int) : Except Err Int :=
  if customer_id < 1 then .error (.wrongCustomerID (toString customer_id))
  else .ok customer_id

/-- `LTV.__init__` (identical in both files): raise `WrongLTV` when the
integer is negative, otherwise keep it. -/
def LTV (ltv : Int) : Except Err Int :=
  if ltv < 0 then
    .error (.wrongLTV ("LTV has to be more than 0, given is " ++ toString ltv))
  else .ok ltv

/-- An aerospike record key: the `(namespace, set, customer id)` triple. -/
structure Key where
  ns : String
  set : String
  id : Int
deriving DecidableEq, Repr

/-- The bins of a stored record that this layer ever touches: `phone` and
`ltv`, each possibly absent (store-state anomalies are in scope). -/
structure Record where
  phone : Option PyStr
  ltv : Option Int
deriving DecidableEq, Repr

/-- The external store's observable state: an ordered association list of
records (order fixes which record a secondary-index query returns first). -/
abbrev Store := List (Key × Record)

/-- `client.put(key, bins)` on the external store: replace the record at
the key in place, or append a fresh one.  Both bins are always written, so
the record afterwards holds exactly the given fields. -/
def storePut : Store → Key → Record → Store
  | [], k, r => [(k, r)]
  | (k', r') :: rest, k, r =>
    if k' = k then (k, r) :: rest else (k', r') :: storePut rest k r

/-- `client.select(key, ["ltv"])` on the external store: the record at the
key, or `none` (which the client surfaces as `RecordNotFound`). -/
def storeSelect : Store → Key → Option Record
  | [], _ => none
  | (k', r) :: rest, k => if k' = k then some r else storeSelect rest k

/-- The secondary-index equality query
`query(ns, set).where(equals("phone", p)).select("ltv").results()`: all
records in the namespace/set whose `phone` bin exists and equals `p`, in
store order. -/
def storeQuery (st : Store) (ns set_ : String) (phone : PyStr) : List Record :=
  (st.filter fun kr =>
    kr.1.ns == ns && kr.1.set == set_ && kr.2.phone == some phone).map Prod.snd

/-- `NAMESPACE`: the default of `getenv("LTV_SERVICE_NAMESPACE", "test")`
(environment configuration is out of scope; the default is modelled). -/
def NAMESPACE : String := "test"

/-- `SET`: the default of `getenv("LTV_SERVICE_SET", "customers")`. -/
def SET : String := "customers"

/-- `PHONE_CHECK_POLICY = PhonePolicyPipeline(NonEmptyPhone(), OnlyPrintablePhone())`,
parameterized by the external character-printability test. -/
def PHONE_CHECK_POLICY (ipr : Char → Bool) : PhoneCheck :=
  PhonePolicyPipeline [NonEmptyPhone.check, OnlyPrintablePhone.check ipr]

/-- A concrete instantiation of Python's character printability used for
evaluating the model on ASCII inputs: ASCII graphic characters and space. -/
def asciiPrintable (c : Char) : Bool :=
  0x20 ≤ c.toNat && c.toNat ≤ 0x7e

namespace LtvService

variable {α : Type}

/-- `Client.handler` in `ltv_service.py`: return the underlying client
(modelled as `Unit`) when `_client is not None and _client.is_connected()`,
otherwise raise `ClientHandlerUnavailable`. -/
def handler (c : Client α) : Except Err Unit :=
  match c.conn with
  | some true => .ok ()
  | _ => .error .clientHandlerUnavailable

/-- `_add_customer` in `ltv_service.py`: build the key and bins, then
`client.handler.put(key, bins)`; returns `None`.  The resulting store
state is the explicit return value of the model. -/
def add_customer_impl (c : Client α) (ns set_ : String) (customer_id : Int)
    (phone : PyStr) (ltv : Int) (st : Store) : Except Err Store := do
  let _ ← handler c
  .ok (storePut st ⟨ns, set_, customer_id⟩ ⟨some phone, some ltv⟩)

/-- `_get_ltv_by_id` in `ltv_service.py`: select the `ltv` bin at the key;
`RecordNotFound` is caught (logged, `None`), a missing `ltv` bin yields
`None`, a stored value rejected by `LTV` raises `WrongLTV` which is caught
(logged, `None`). -/
def get_ltv_by_id_impl (c : Client α) (ns set_ : String) (customer_id : Int)
    (st : Store) : Except Err (Option Int) := do
  let _ ← handler c
  match storeSelect st ⟨ns, set_, customer_id⟩ with
  | none => .ok none
  | some r =>
    match r.ltv with
    | none => .ok none
    | some v =>
      match LTV v with
      | .ok l => .ok (some l)
      | .error (.wrongLTV _) => .ok none
      | .error e => .error e

/-- `_get_ltv_by_phone` in `ltv_service.py`: secondary-index query on the
`phone` bin; empty result list yields `None`, then the first result's
`ltv` bin is handled exactly as in `_get_ltv_by_id`. -/
def get_ltv_by_phone_impl (c : Client α) (ns set_ : String) (phone : PyStr)
    (st : Store) : Except Err (Option Int) := do
  let _ ← handler c
  match (storeQuery st ns set_ phone).head? with
  | none => .ok none
  | some r =>
    match r.ltv with
    | none => .ok none
    | some v =>
      match LTV v with
      | .ok l => .ok (some l)
      | .error (.wrongLTV _) => .ok none
      | .error e => .error e

/-- `add_customer` in `ltv_service.py`: validate phone, id and ltv (in that
order), then `_add_customer`; returns `None`. -/
def add_customer (ipr : Char → Bool) (c : Client α) (st : Store)
    (customer_id : Int) (phone_number : PyStr) (lifetime_value : Int) :
    Except Err Store := do
  let phone ← PhoneNumber (PHONE_CHECK_POLICY ipr) phone_number
  let id_ ← CustomerID customer_id
  let ltv ← LTV lifetime_value
  add_customer_impl c NAMESPACE SET id_ phone ltv st

/-- `get_ltv_by_id` in `ltv_service.py`: validate the id, look up, unwrap
the optional `LTV` to a plain optional integer. -/
def get_ltv_by_id (c : Client α) (st : Store) (customer_id : Int) :
    Except Err (Option Int) := do
  let id_ ← CustomerID customer_id
  get_ltv_by_id_impl c NAMESPACE SET id_ st

/-- `get_ltv_by_phone` in `ltv_service.py`: validate the phone, query,
unwrap the optional `LTV` to a plain optional integer. -/
def get_ltv_by_phone (ipr : Char → Bool) (c : Client α) (st : Store)
    (phone_number : PyStr) : Except Err (Option Int) := do
  let phone ← PhoneNumber (PHONE_CHECK_POLICY ipr) phone_number
  get_ltv_by_phone_impl c NAMESPACE SET phone st

end LtvService

namespace LtvServiceApi

variable {α : Type}

/-- `Client.is_closed` in `ltv_service_api.py`: raise
`AerospikeClientUnavailable` when `_client is None`; otherwise the guard
`if self.is_available and self._client.is_connected()` (the method object
`self.is_available` is truthy) reduces to `is_connected()`. -/
def is_closed (c : Client α) : Except Err Bool :=
  match c.conn with
  | none => .error .aerospikeClientUnavailable
  | some b => .ok (!b)

/-- `Client.handler` in `ltv_service_api.py`: return the underlying client
when `not self.is_closed()`, otherwise raise `AerospikeClientUnavailable`;
`is_closed` itself raises when `_client is None`. -/
def handler (c : Client α) : Except Err Unit := do
  let closed ← is_closed c
  if closed then .error .aerospikeClientUnavailable else .ok ()

/-- `_add_customer` in `ltv_service_api.py`: same write as the other file,
but returns the `CustomerID`. -/
def add_customer_impl (c : Client α) (ns set_ : String) (customer_id : Int)
    (phone : PyStr) (ltv : Int) (st : Store) : Except Err (Store × Int) := do
  let _ ← handler c
  .ok (storePut st ⟨ns, set_, customer_id⟩ ⟨some phone, some ltv⟩, customer_id)

/-- `_get_ltv_by_id` in `ltv_service_api.py` (textually identical to the
one in `ltv_service.py`, except for the handler accessor). -/
def get_ltv_by_id_impl (c : Client α) (ns set_ : String) (customer_id : Int)
    (st : Store) : Except Err (Option Int) := do
  let _ ← handler c
  match storeSelect st ⟨ns, set_, customer_id⟩ with
  | none => .ok none
  | some r =>
    match r.ltv with
    | none => .ok none
    | some v =>
      match LTV v with
      | .ok l => .ok (some l)
      | .error (.wrongLTV _) => .ok none
      | .error e => .error e

/-- `_get_ltv_by_phone` in `ltv_service_api.py` (textually identical to
the one in `ltv_service.py`, except for the handler accessor). -/
def get_ltv_by_phone_impl (c : Client α) (ns set_ : String) (phone : PyStr)
    (st : Store) : Except Err (Option Int) := do
  let _ ← handler c
  match (storeQuery st ns set_ phone).head? with
  | none => .ok none
  | some r =>
    match r.ltv with
    | none => .ok none
    | some v =>
      match LTV v with
      | .ok l => .ok (some l)
      | .error (.wrongLTV _) => .ok none
      | .error e => .error e

/-- `add_customer` in `ltv_service_api.py`: validate phone, id and ltv,
write, then `assert result == customer_id` and return the written id. -/
def add_customer (ipr : Char → Bool) (c : Client α) (st : Store)
    (customer_id : Int) (phone_number : PyStr) (lifetime_value : Int) :
    Except Err (Store × Int) := do
  let phone ← PhoneNumber (PHONE_CHECK_POLICY ipr) phone_number
  let id_ ← CustomerID customer_id
  let ltv ← LTV lifetime_value
  let (st', result) ← add_customer_impl c NAMESPACE SET id_ phone ltv st
  if result = customer_id then .ok (st', result)
  else .error (.assertionError ("Result id " ++ toString result ++
    " is not equal given customer id " ++ toString customer_id))

/-- `get_ltv_by_id` in `ltv_service_api.py`. -/
def get_ltv_by_id (c : Client α) (st : Store) (customer_id : Int) :
    Except Err (Option Int) := do
  let id_ ← CustomerID customer_id
  get_ltv_by_id_impl c NAMESPACE SET id_ st

/-- `get_ltv_by_phone` in `ltv_service_api.py`. -/
def get_ltv_by_phone (ipr : Char → Bool) (c : Client α) (st : Store)
    (phone_number : PyStr) : Except Err (Option Int) := do
  let phone ← PhoneNumber (PHONE_CHECK_POLICY ipr) phone_number
  get_ltv_by_phone_impl c NAMESPACE SET phone st

end LtvServiceApi

/-- Maps the handler-unavailable exception of `ltv_service.py` to the one
of `ltv_service_api.py` and leaves every other outcome unchanged; used to
compare the two files' public functions. -/
def renameUnavailable {β : Type} : Except Err β → Except Err β
  | .error .clientHandlerUnavailable => .error .aerospikeClientUnavailable
  | e => e

section Helpers

variable {β γ : Type}

@[simp] lemma except_bind_ok (a : β) (f : β → Except Err γ) :
    (Except.ok a >>= f) = f a := rfl

@[simp] lemma except_bind_error (e : Err) (f : β → Except Err γ) :
    ((Except.error e : Except Err β) >>= f) = .error e := rfl

@[simp] lemma renameUnavailable_ok (b : β) :
    renameUnavailable (.ok b) = (.ok b : Except Err β) := rfl

@[simp] lemma renameUnavailable_chu :
    renameUnavailable (.error .clientHandlerUnavailable : Except Err β) =
      .error .aerospikeClientUnavailable := rfl

lemma renameUnavailable_error (e : Err) (h : e ≠ .clientHandlerUnavailable) :
    renameUnavailable (.error e : Except Err β) = .error e := by
  cases e <;> simp_all [renameUnavailable]

/-- The record stored for a key is the one just put there. -/
lemma storeSelect_storePut_self (st : Store) (k : Key) (r : Record) :
    storeSelect (storePut st k r) k = some r := by
  induction st with
  | nil => simp [storePut, storeSelect]
  | cons kr rest ih =>
    by_cases hk : kr.1 = k
    · simp [storePut, storeSelect, hk]
    · simp [storePut, storeSelect, hk, ih]

lemma contains_iff_mem (l : List String) (a : String) :
    l.contains a = true ↔ a ∈ l := List.elem_iff

lemma customerID_ok (i : Int) (hi : 1 ≤ i) : CustomerID i = .ok i := by
  unfold CustomerID
  rw [if_neg (by omega)]

lemma customerID_err (i : Int) (hi : i < 1) :
    CustomerID i = .error (.wrongCustomerID (toString i)) := by
  unfold CustomerID
  rw [if_pos hi]

lemma ltv_ok (v : Int) (hv : 0 ≤ v) : LTV v = .ok v := by
  unfold LTV
  rw [if_neg (by omega)]

lemma ltv_err (v : Int) (hv : v < 0) :
    LTV v = .error (.wrongLTV ("LTV has to be more than 0, given is " ++ toString v)) := by
  unfold LTV
  rw [if_pos hv]

lemma phoneNumber_ok (ipr : Char → Bool) (p : PyStr) (hne : p ≠ [])
    (hall : p.all ipr = true) :
    PhoneNumber (PHONE_CHECK_POLICY ipr) p = .ok p := by
  simp [PhoneNumber, PHONE_CHECK_POLICY, PhonePolicyPipeline,
    NonEmptyPhone.check, OnlyPrintablePhone.check, hne, hall]

lemma phoneNumber_empty (ipr : Char → Bool) :
    PhoneNumber (PHONE_CHECK_POLICY ipr) [] =
      .error (.wrongNumberFormat "empty phone number") := by
  simp [PhoneNumber, PHONE_CHECK_POLICY, PhonePolicyPipeline, NonEmptyPhone.check]

lemma phoneNumber_nonprintable (ipr : Char → Bool) (p : PyStr) (hne : p ≠ [])
    (hall : p.all ipr = false) :
    PhoneNumber (PHONE_CHECK_POLICY ipr) p =
      .error (.wrongNumberFormat "non-printable characters in phone number") := by
  simp [PhoneNumber, PHONE_CHECK_POLICY, PhonePolicyPipeline,
    NonEmptyPhone.check, OnlyPrintablePhone.check, hne, hall]

lemma service_handler_ok {α : Type} (c : Client α) (hc : c.conn = some true) :
    LtvService.handler c = .ok () := by
  unfold LtvService.handler
  rw [hc]

lemma service_handler_unavail {α : Type} (c : Client α) (hc : c.conn ≠ some true) :
    LtvService.handler c = .error .clientHandlerUnavailable := by
  unfold LtvService.handler
  rcases hb : c.conn with _ | b
  · rfl
  · cases b
    · rfl
    · exact absurd hb hc

lemma api_handler_ok {α : Type} (c : Client α) (hc : c.conn = some true) :
    LtvServiceApi.handler c = .ok () := by
  unfold LtvServiceApi.handler LtvServiceApi.is_closed
  rw [hc]
  rfl

lemma api_handler_unavail {α : Type} (c : Client α) (hc : c.conn ≠ some true) :
    LtvServiceApi.handler c = .error .aerospikeClientUnavailable := by
  unfold LtvServiceApi.handler LtvServiceApi.is_closed
  rcases hb : c.conn with _ | b
  · rfl
  · cases b
    · rfl
    · exact absurd hb hc

/-- A `with_options` fold fails with a duplicate-option error whenever one
of the supplied keys is already configured. -/
lemma with_options_duplicate {α : Type} :
    ∀ (options : List (String × α)) (c : Client α),
      (∃ kv ∈ options, kv.1 ∈ c.config.map Prod.fst) →
      ∃ k2, c.with_options options = .error (.clientOptionExists k2) := by
  intro options
  induction options with
  | nil =>
    intro c h
    simp at h
  | cons kv rest ih =>
    intro c h
    by_cases hk : (c.config.map Prod.fst).contains kv.1 = true
    · refine ⟨kv.1, ?_⟩
      unfold Client.with_options
      rw [List.foldlM_cons]
      unfold Client.with_option
      rw [if_pos hk]
      rfl
    · have hk2 : kv.1 ∉ c.config.map Prod.fst :=
        fun hm => hk ((contains_iff_mem _ _).mpr hm)
      obtain ⟨kv', hmem, hin⟩ := h
      rcases List.mem_cons.mp hmem with heq | htail
      · subst heq
        exact absurd hin hk2
      · have step : c.with_options (kv :: rest) =
            Client.with_options { c with config := c.config ++ [(kv.1, kv.2)] } rest := by
          unfold Client.with_options
          rw [List.foldlM_cons]
          unfold Client.with_option
          rw [if_neg hk]
          rfl

        rw [step]
        apply ih
        refine ⟨kv', htail, ?_⟩
        simp only [List.map_append, List.mem_append]
        exact Or.inl hin

end Helpers

/-- Claim C7: `with_option` raises `ClientOptionExists` when the key is
already configured and otherwise appends the pair and returns the client;
consequently a `with_options` call containing an already-present key fails
with the duplicate-option error. -/
theorem c7_duplicate_option (α : Type) (c : Client α) (k : String) (v : α) :
    (k ∈ c.config.map Prod.fst →
      c.with_option k v = .error (.clientOptionExists k)) ∧
    (k ∉ c.config.map Prod.fst →
      c.with_option k v = .ok { c with config := c.config ++ [(k, v)] }) ∧
    (∀ options : List (String × α),
      (∃ kv ∈ options, kv.1 ∈ c.config.map Prod.fst) →
      ∃ k2, c.with_options options = .error (.clientOptionExists k2)) := by
  refine ⟨fun h => ?_, fun h => ?_,
    fun options h => with_options_duplicate options c h⟩
  · unfold Client.with_option
    rw [if_pos ((contains_iff_mem _ _).mpr h)]
  · unfold Client.with_option
    rw [if_neg (fun hc => h ((contains_iff_mem _ _).mp hc))]

/-- Witness for C7: duplicate key "a" rejected, fresh key "b" appended. -/
theorem c7_duplicate_option_witness :
    Client.with_option (⟨[("a", 1)], none⟩ : Client Nat) "a" 2 =
      .error (.clientOptionExists "a") ∧
    Client.with_option (⟨[("a", 1)], none⟩ : Client Nat) "b" 2 =
      .ok (⟨[("a", 1), ("b", 2)], none⟩ : Client Nat) :=
  ⟨(c7_duplicate_option Nat ⟨[("a", 1)], none⟩ "a" 2).1 (by simp),
   (c7_duplicate_option Nat ⟨[("a", 1)], none⟩ "b" 2).2.1 (by simp)⟩

/-- Claim C9: with validated scalar inputs, every one of the three
operations fails with the file's handler-unavailable error as soon as the
connection is absent (`_client is None`) or dropped (not connected), in
both source files, before any store call is made (the error is produced by
the `handler` accessor, reached before `put`, `select` or `query`). -/
theorem c9_handler_unavailable_fails_fast (α : Type) (ipr : Char → Bool)
    (c : Client α) (st : Store) (i : Int) (p : PyStr) (v : Int)
    (hc : c.conn ≠ some true) (hi : 1 ≤ i) (hp : p ≠ [])
    (hpr : p.all ipr = true) (hv : 0 ≤ v) :
    LtvService.add_customer ipr c st i p v = .error .clientHandlerUnavailable ∧
    LtvService.get_ltv_by_id c st i = .error .clientHandlerUnavailable ∧
    LtvService.get_ltv_by_phone ipr c st p = .error .clientHandlerUnavailable ∧
    LtvServiceApi.add_customer ipr c st i p v = .error .aerospikeClientUnavailable ∧
    LtvServiceApi.get_ltv_by_id c st i = .error .aerospikeClientUnavailable ∧
    LtvServiceApi.get_ltv_by_phone ipr c st p = .error .aerospikeClientUnavailable := by
  refine ⟨?_, ?_, ?_, ?_, ?_, ?_⟩
  · simp [LtvService.add_customer, LtvService.add_customer_impl,
      phoneNumber_ok ipr p hp hpr, customerID_ok i hi, ltv_ok v hv,
      service_handler_unavail c hc]
  · simp [LtvService.get_ltv_by_id, LtvService.get_ltv_by_id_impl,
      customerID_ok i hi, service_handler_unavail c hc]
  · simp [LtvService.get_ltv_by_phone, LtvService.get_ltv_by_phone_impl,
      phoneNumber_ok ipr p hp hpr, service_handler_unavail c hc]
  · simp [LtvServiceApi.add_customer, LtvServiceApi.add_customer_impl,
      phoneNumber_ok ipr p hp hpr, customerID_ok i hi, ltv_ok v hv,
      api_handler_unavail c hc]
  · simp [LtvServiceApi.get_ltv_by_id, LtvServiceApi.get_ltv_by_id_impl,
      customerID_ok i hi, api_handler_unavail c hc]
  · simp [LtvServiceApi.get_ltv_by_phone, LtvServiceApi.get_ltv_by_phone_impl,
      phoneNumber_ok ipr p hp hpr, api_handler_unavail c hc]

/-- Witness for C9 on a dropped connection with valid inputs. -/
theorem c9_handler_unavailable_fails_fast_witness :
    LtvService.add_customer asciiPrintable (⟨[], some false⟩ : Client Unit)
      [] 1 ['5'] 0 = .error .clientHandlerUnavailable ∧
    LtvService.get_ltv_by_id (⟨[], some false⟩ : Client Unit) [] 1 =
      .error .clientHandlerUnavailable ∧
    LtvService.get_ltv_by_phone asciiPrintable (⟨[], some false⟩ : Client Unit)
      [] ['5'] = .error .clientHandlerUnavailable ∧
    LtvServiceApi.add_customer asciiPrintable (⟨[], some false⟩ : Client Unit)
      [] 1 ['5'] 0 = .error .aerospikeClientUnavailable ∧
    LtvServiceApi.get_ltv_by_id (⟨[], some false⟩ : Client Unit) [] 1 =
      .error .aerospikeClientUnavailable ∧
    LtvServiceApi.get_ltv_by_phone asciiPrintable (⟨[], some false⟩ : Client Unit)
      [] ['5'] = .error .aerospikeClientUnavailable :=
  c9_handler_unavailable_fails_fast Unit asciiPrintable ⟨[], some false⟩ [] 1
    ['5'] 0 (by decide) (by decide) (by decide) (by decide) (by decide)

/-- Claim C1: on a connected client, `add_customer(conn, i, p, v)` with a
positive id, valid phone and non-negative ltv succeeds (producing the
store with the record written at `(NAMESPACE, SET, i)`), and
`get_ltv_by_id(conn, i)` on the resulting store returns `v`, not absent. -/
theorem c1_add_get_round_trip (α : Type) (ipr : Char → Bool) (c : Client α)
    (st : Store) (i : Int) (p : PyStr) (v : Int)
    (hc : c.conn = some true) (hi : 1 ≤ i) (hp : p ≠ [])
    (hpr : p.all ipr = true) (hv : 0 ≤ v) :
    LtvService.add_customer ipr c st i p v =
      .ok (storePut st ⟨NAMESPACE, SET, i⟩ ⟨some p, some v⟩) ∧
    LtvService.get_ltv_by_id c
      (storePut st ⟨NAMESPACE, SET, i⟩ ⟨some p, some v⟩) i = .ok (some v) := by
  constructor
  · simp [LtvService.add_customer, LtvService.add_customer_impl,
      phoneNumber_ok ipr p hp hpr, customerID_ok i hi, ltv_ok v hv,
      service_handler_ok c hc]
  · simp [LtvService.get_ltv_by_id, LtvService.get_ltv_by_id_impl,
      customerID_ok i hi, service_handler_ok c hc,
      storeSelect_storePut_self, ltv_ok v hv]

/-- Witness for C1: the spec's concrete instance, id 42, phone "555-0100",
ltv 1000. -/
theorem c1_add_get_round_trip_witness :
    LtvService.add_customer asciiPrintable (⟨[], some true⟩ : Client Unit)
      [] 42 "555-0100".toList 1000 =
      .ok (storePut [] ⟨NAMESPACE, SET, 42⟩ ⟨some "555-0100".toList, some 1000⟩) ∧
    LtvService.get_ltv_by_id (⟨[], some true⟩ : Client Unit)
      (storePut [] ⟨NAMESPACE, SET, 42⟩ ⟨some "555-0100".toList, some 1000⟩) 42 =
      .ok (some 1000) :=
  c1_add_get_round_trip Unit asciiPrintable ⟨[], some true⟩ [] 42
    "555-0100".toList 1000 rfl (by decide) (by decide) (by decide) (by decide)

/-- Claim C10: any integer the two public reads of `ltv_service.py` return
is non-negative — the stored value is revalidated through `LTV`
construction, whose failure is collapsed to an absent result, so a
negative stored value never reaches the caller. -/
theorem c10_returned_ltv_nonneg (α : Type) (ipr : Char → Bool) (c : Client α)
    (st : Store) (i : Int) (p : PyStr) (v : Int) :
    (LtvService.get_ltv_by_id c st i = .ok (some v) → 0 ≤ v) ∧
    (LtvService.get_ltv_by_phone ipr c st p = .ok (some v) → 0 ≤ v) := by
  constructor
  · intro h
    by_cases hi : i < 1
    · rw [LtvService.get_ltv_by_id, customerID_err i hi] at h
      simp at h
    · rw [LtvService.get_ltv_by_id, customerID_ok i (by omega)] at h
      rcases hc : c.conn with _ | b
      · rw [except_bind_ok, LtvService.get_ltv_by_id_impl,
          service_handler_unavail c (by rw [hc]; simp)] at h
        simp at h
      · cases b
        · rw [except_bind_ok, LtvService.get_ltv_by_id_impl,
            service_handler_unavail c (by rw [hc]; simp)] at h
          simp at h
        · rw [except_bind_ok, LtvService.get_ltv_by_id_impl,
            service_handler_ok c hc] at h
          rcases hsel : storeSelect st ⟨NAMESPACE, SET, i⟩ with _ | r
          · rw [except_bind_ok, hsel] at h
            simp at h
          · rw [except_bind_ok, hsel] at h
            rcases hltv : r.ltv with _ | w
            · simp [hltv] at h
            · by_cases hw : w < 0
              · simp [hltv, ltv_err w hw] at h
              · simp [hltv, ltv_ok w (by omega)] at h
                omega
  · intro h
    by_cases hne : p = []
    · rw [LtvService.get_ltv_by_phone, hne, phoneNumber_empty ipr] at h
      simp at h
    · by_cases hall : p.all ipr = true
      · rw [LtvService.get_ltv_by_phone, phoneNumber_ok ipr p hne hall] at h
        rcases hc : c.conn with _ | b
        · rw [except_bind_ok, LtvService.get_ltv_by_phone_impl,
            service_handler_unavail c (by rw [hc]; simp)] at h
          simp at h
        · cases b
          · rw [except_bind_ok, LtvService.get_ltv_by_phone_impl,
              service_handler_unavail c (by rw [hc]; simp)] at h
            simp at h
          · rw [except_bind_ok, LtvService.get_ltv_by_phone_impl,
              service_handler_ok c hc] at h
            rcases hq : (storeQuery st NAMESPACE SET p).head? with _ | r
            · rw [except_bind_ok, hq] at h
              simp at h
            · rw [except_bind_ok, hq] at h
              rcases hltv : r.ltv with _ | w
              · simp [hltv] at h
              · by_cases hw : w < 0
                · simp [hltv, ltv_err w hw] at h
                · simp [hltv, ltv_ok w (by omega)] at h
                  omega
      · rw [LtvService.get_ltv_by_phone,
          phoneNumber_nonprintable ipr p hne (by simpa using hall)] at h
        simp at h

/-- Witness for C10: a stored record with ltv 7 is read back and 7 is
non-negative. -/
theorem c10_returned_ltv_nonneg_witness : (0 : Int) ≤ 7 :=
  (c10_returned_ltv_nonneg Unit asciiPrintable ⟨[], some true⟩
    [(⟨"test", "customers", 7⟩, ⟨some ['5'], some 7⟩)] 7 ['5'] 7).1 (by rfl)

/-- Claim C5: for every integer n ≥ 1, `CustomerID(n)` succeeds preserving
n; for n ≤ 0 it raises `WrongCustomerID`. -/
theorem c5_customer_id_validation (n : Int) :
    (1 ≤ n → CustomerID n = .ok n) ∧
    (n ≤ 0 → CustomerID n = .error (.wrongCustomerID (toString n))) := by
  constructor
  · intro h
    unfold CustomerID
    rw [if_neg (by omega)]
  · intro h
    unfold CustomerID
    rw [if_pos (by omega)]

/-- Witness for C5 at n = 5 and n = 0. -/
theorem c5_customer_id_validation_witness :
    CustomerID 5 = .ok 5 ∧
    CustomerID 0 = .error (.wrongCustomerID (toString (0 : Int))) :=
  ⟨(c5_customer_id_validation 5).1 (by decide),
   (c5_customer_id_validation 0).2 (by decide)⟩

/-- Claim C6: for every integer n ≥ 0, `LTV(n)` succeeds preserving n; for
n < 0 it raises `WrongLTV`. -/
theorem c6_ltv_validation (n : Int) :
    (0 ≤ n → LTV n = .ok n) ∧
    (n < 0 → LTV n =
      .error (.wrongLTV ("LTV has to be more than 0, given is " ++ toString n))) := by
  constructor
  · intro h
    unfold LTV
    rw [if_neg (by omega)]
  · intro h
    unfold LTV
    rw [if_pos h]

/-- Witness for C6 at n = 0 and n = -3. -/
theorem c6_ltv_validation_witness :
    LTV 0 = .ok 0 ∧
    LTV (-3) =
      .error (.wrongLTV ("LTV has to be more than 0, given is " ++ toString (-3 : Int))) :=
  ⟨(c6_ltv_validation 0).1 (by decide), (c6_ltv_validation (-3)).2 (by decide)⟩

/-- Claim C3: under the default policy, `PhoneNumber` construction succeeds
and preserves every non-empty all-printable string; the empty string fails
with reason "empty phone number"; a non-empty string with a non-printable
character fails with reason "non-printable characters in phone number";
the emptiness check runs first, so the empty string reports the
empty-phone reason. -/
theorem c3_phone_number_validation (ipr : Char → Bool) (p : PyStr) :
    (p ≠ [] → p.all ipr = true →
      PhoneNumber (PHONE_CHECK_POLICY ipr) p = .ok p) ∧
    (PhoneNumber (PHONE_CHECK_POLICY ipr) [] =
      .error (.wrongNumberFormat "empty phone number")) ∧
    (p ≠ [] → p.all ipr = false →
      PhoneNumber (PHONE_CHECK_POLICY ipr) p =
        .error (.wrongNumberFormat "non-printable characters in phone number")) := by
  refine ⟨fun hne hall => ?_, ?_, fun hne hall => ?_⟩
  · simp [PhoneNumber, PHONE_CHECK_POLICY, PhonePolicyPipeline,
      NonEmptyPhone.check, OnlyPrintablePhone.check, hne, hall]
  · simp [PhoneNumber, PHONE_CHECK_POLICY, PhonePolicyPipeline,
      NonEmptyPhone.check]
  · simp [PhoneNumber, PHONE_CHECK_POLICY, PhonePolicyPipeline,
      NonEmptyPhone.check, OnlyPrintablePhone.check, hne, hall]

/-- Witness for C3 with ASCII printability, at "555-0100", "" and "a\x01". -/
theorem c3_phone_number_validation_witness :
    PhoneNumber (PHONE_CHECK_POLICY asciiPrintable) "555-0100".toList =
      .ok "555-0100".toList ∧
    PhoneNumber (PHONE_CHECK_POLICY asciiPrintable) [] =
      .error (.wrongNumberFormat "empty phone number") ∧
    PhoneNumber (PHONE_CHECK_POLICY asciiPrintable) ['a', '\x01'] =
      .error (.wrongNumberFormat "non-printable characters in phone number") :=
  ⟨(c3_phone_number_validation asciiPrintable "555-0100".toList).1
      (by decide) (by decide),
   (c3_phone_number_validation asciiPrintable []).2.1,
   (c3_phone_number_validation asciiPrintable ['a', '\x01']).2.2
      (by decide) (by decide)⟩

/-- Claim C8: the claim says `close` never raises in any client state and
is idempotent.  The code is a slip: the guard
`if self.is_available and self._client.is_connected()` names the method
`is_available` without calling it (a truthy object), so on a
never-connected client (`_client is None`) the guard evaluates
`None.is_connected()` and raises `AttributeError`.  This theorem evaluates
the model at that failing input. -/
theorem c8_close_raises_when_never_connected :
    Client.close (⟨[], none⟩ : Client Unit) = .error .attributeError := rfl

/-- Claim C2: on a connected client, the two reads of `ltv_service.py`
surface every store-side condition — record not found, `ltv` bin absent,
stored `ltv` negative — as the absent result `none` rather than an
exception, and any exception they do raise is the malformed-input
validation error of the function (`WrongCustomerID` for the id read,
`WrongNumberFormat` for the phone read). -/
theorem c2_store_anomalies_absent (α : Type) (ipr : Char → Bool)
    (c : Client α) (hc : c.conn = some true) :
    (∀ i st, 1 ≤ i → storeSelect st ⟨NAMESPACE, SET, i⟩ = none →
      LtvService.get_ltv_by_id c st i = .ok none) ∧
    (∀ i st r, 1 ≤ i → storeSelect st ⟨NAMESPACE, SET, i⟩ = some r →
      r.ltv = none → LtvService.get_ltv_by_id c st i = .ok none) ∧
    (∀ i st r v, 1 ≤ i → storeSelect st ⟨NAMESPACE, SET, i⟩ = some r →
      r.ltv = some v → v < 0 → LtvService.get_ltv_by_id c st i = .ok none) ∧
    (∀ i st e, LtvService.get_ltv_by_id c st i = .error e →
      ∃ m, e = .wrongCustomerID m) ∧
    (∀ p st, p ≠ [] → p.all ipr = true → storeQuery st NAMESPACE SET p = [] →
      LtvService.get_ltv_by_phone ipr c st p = .ok none) ∧
    (∀ p st r rest, p ≠ [] → p.all ipr = true →
      storeQuery st NAMESPACE SET p = r :: rest → r.ltv = none →
      LtvService.get_ltv_by_phone ipr c st p = .ok none) ∧
    (∀ p st r rest v, p ≠ [] → p.all ipr = true →
      storeQuery st NAMESPACE SET p = r :: rest → r.ltv = some v → v < 0 →
      LtvService.get_ltv_by_phone ipr c st p = .ok none) ∧
    (∀ p st e, LtvService.get_ltv_by_phone ipr c st p = .error e →
      ∃ m, e = .wrongNumberFormat m) := by
  refine ⟨?_, ?_, ?_, ?_, ?_, ?_, ?_, ?_⟩
  · intro i st hi hsel
    rw [LtvService.get_ltv_by_id, customerID_ok i hi, except_bind_ok,
      LtvService.get_ltv_by_id_impl, service_handler_ok c hc, except_bind_ok,
      hsel]
  · intro i st r hi hsel hr
    rw [LtvService.get_ltv_by_id, customerID_ok i hi, except_bind_ok,
      LtvService.get_ltv_by_id_impl, service_handler_ok c hc, except_bind_ok,
      hsel]
    simp [hr]
  · intro i st r v hi hsel hr hv
    rw [LtvService.get_ltv_by_id, customerID_ok i hi, except_bind_ok,
      LtvService.get_ltv_by_id_impl, service_handler_ok c hc, except_bind_ok,
      hsel]
    simp [hr, ltv_err v hv]
  · intro i st e h
    by_cases hi : i < 1
    · rw [LtvService.get_ltv_by_id, customerID_err i hi] at h
      simp at h
      exact ⟨toString i, h.symm⟩
    · rw [LtvService.get_ltv_by_id, customerID_ok i (by omega), except_bind_ok,
        LtvService.get_ltv_by_id_impl, service_handler_ok c hc,
        except_bind_ok] at h
      rcases hsel : storeSelect st ⟨NAMESPACE, SET, i⟩ with _ | r
      · rw [hsel] at h
        simp at h
      · rw [hsel] at h
        rcases hr : r.ltv with _ | w
        · simp [hr] at h
        · by_cases hw : w < 0
          · simp [hr, ltv_err w hw] at h
          · simp [hr, ltv_ok w (by omega)] at h
  · intro p st hne hall hq
    rw [LtvService.get_ltv_by_phone, phoneNumber_ok ipr p hne hall,
      except_bind_ok, LtvService.get_ltv_by_phone_impl,
      service_handler_ok c hc, except_bind_ok, hq]
    rfl
  · intro p st r rest hne hall hq hr
    rw [LtvService.get_ltv_by_phone, phoneNumber_ok ipr p hne hall,
      except_bind_ok, LtvService.get_ltv_by_phone_impl,
      service_handler_ok c hc, except_bind_ok, hq]
    simp [hr]
  · intro p st r rest v hne hall hq hr hv
    rw [LtvService.get_ltv_by_phone, phoneNumber_ok ipr p hne hall,
      except_bind_ok, LtvService.get_ltv_by_phone_impl,
      service_handler_ok c hc, except_bind_ok, hq]
    simp [hr, ltv_err v hv]
  · intro p st e h
    by_cases hne : p = []
    · rw [LtvService.get_ltv_by_phone, hne, phoneNumber_empty ipr] at h
      simp at h
      exact ⟨"empty phone number", h.symm⟩
    · by_cases hall : p.all ipr = true
      · rw [LtvService.get_ltv_by_phone, phoneNumber_ok ipr p hne hall,
          except_bind_ok, LtvService.get_ltv_by_phone_impl,
          service_handler_ok c hc, except_bind_ok] at h
        rcases hq : (storeQuery st NAMESPACE SET p).head? with _ | r
        · rw [hq] at h
          simp at h
        · rw [hq] at h
          rcases hr : r.ltv with _ | w
          · simp [hr] at h
          · by_cases hw : w < 0
            · simp [hr, ltv_err w hw] at h
            · simp [hr, ltv_ok w (by omega)] at h
      · rw [LtvService.get_ltv_by_phone,
          phoneNumber_nonprintable ipr p hne (by simpa using hall)] at h
        simp at h
        exact ⟨"non-printable characters in phone number", h.symm⟩

/-- Witness for C2: a never-written id reads back as absent, and a record
whose stored ltv is negative also reads back as absent. -/
theorem c2_store_anomalies_absent_witness :
    LtvService.get_ltv_by_id (⟨[], some true⟩ : Client Unit) [] 9999 =
      .ok none ∧
    LtvService.get_ltv_by_id (⟨[], some true⟩ : Client Unit)
      [(⟨"test", "customers", 1⟩, ⟨some ['5'], some (-5)⟩)] 1 = .ok none :=
  ⟨(c2_store_anomalies_absent Unit asciiPrintable ⟨[], some true⟩ rfl).1
      9999 [] (by decide) rfl,
   (c2_store_anomalies_absent Unit asciiPrintable ⟨[], some true⟩ rfl).2.2.1
      1 [(⟨"test", "customers", 1⟩, ⟨some ['5'], some (-5)⟩)]
      ⟨some ['5'], some (-5)⟩ (-5) (by decide) (by rfl) rfl (by decide)⟩

/-- `get_ltv_by_id` agrees across the two files up to the renaming of the
handler-unavailable exception. -/
lemma get_by_id_agree {α : Type} (c : Client α) (st : Store) (i : Int) :
    LtvServiceApi.get_ltv_by_id c st i =
      renameUnavailable (LtvService.get_ltv_by_id c st i) := by
  by_cases hi : i < 1
  · rw [LtvServiceApi.get_ltv_by_id, LtvService.get_ltv_by_id,
      customerID_err i hi, except_bind_error, except_bind_error,
      renameUnavailable_error _ (by simp)]
  · by_cases hcn : c.conn = some true
    · rw [LtvServiceApi.get_ltv_by_id, LtvService.get_ltv_by_id,
        customerID_ok i (by omega), except_bind_ok, except_bind_ok,
        LtvServiceApi.get_ltv_by_id_impl, LtvService.get_ltv_by_id_impl,
        api_handler_ok c hcn, service_handler_ok c hcn, except_bind_ok]
      rcases hsel : storeSelect st ⟨NAMESPACE, SET, i⟩ with _ | r
      · simp [hsel]
      · rcases hr : r.ltv with _ | w
        · simp [hsel, hr]
        · by_cases hw : w < 0
          · simp [hsel, hr, ltv_err w hw]
          · simp [hsel, hr, ltv_ok w (by omega)]
    · rw [LtvServiceApi.get_ltv_by_id, LtvService.get_ltv_by_id,
        customerID_ok i (by omega), except_bind_ok, except_bind_ok,
        LtvServiceApi.get_ltv_by_id_impl, LtvService.get_ltv_by_id_impl,
        api_handler_unavail c hcn, service_handler_unavail c hcn,
        except_bind_error, except_bind_error, renameUnavailable_chu]

/-- `get_ltv_by_phone` agrees across the two files up to the renaming of
the handler-unavailable exception. -/
lemma get_by_phone_agree {α : Type} (ipr : Char → Bool) (c : Client α)
    (st : Store) (p : PyStr) :
    LtvServiceApi.get_ltv_by_phone ipr c st p =
      renameUnavailable (LtvService.get_ltv_by_phone ipr c st p) := by
  by_cases hne : p = []
  · rw [LtvServiceApi.get_ltv_by_phone, LtvService.get_ltv_by_phone, hne,
      phoneNumber_empty ipr, except_bind_error, except_bind_error,
      renameUnavailable_error _ (by simp)]
  · by_cases hall : p.all ipr = true
    · by_cases hcn : c.conn = some true
      · rw [LtvServiceApi.get_ltv_by_phone, LtvService.get_ltv_by_phone,
          phoneNumber_ok ipr p hne hall, except_bind_ok, except_bind_ok,
          LtvServiceApi.get_ltv_by_phone_impl, LtvService.get_ltv_by_phone_impl,
          api_handler_ok c hcn, service_handler_ok c hcn, except_bind_ok]
        rcases hq : (storeQuery st NAMESPACE SET p).head? with _ | r
        · simp [hq]
        · rcases hr : r.ltv with _ | w
          · simp [hq, hr]
          · by_cases hw : w < 0
            · simp [hq, hr, ltv_err w hw]
            · simp [hq, hr, ltv_ok w (by omega)]
      · rw [LtvServiceApi.get_ltv_by_phone, LtvService.get_ltv_by_phone,
          phoneNumber_ok ipr p hne hall, except_bind_ok, except_bind_ok,
          LtvServiceApi.get_ltv_by_phone_impl, LtvService.get_ltv_by_phone_impl,
          api_handler_unavail c hcn, service_handler_unavail c hcn,
          except_bind_error, except_bind_error, renameUnavailable_chu]
    · rw [LtvServiceApi.get_ltv_by_phone, LtvService.get_ltv_by_phone,
        phoneNumber_nonprintable ipr p hne (by simpa using hall),
        except_bind_error, except_bind_error,
        renameUnavailable_error _ (by simp)]

/-- `add_customer` performs the same store write in both files, the
difference being the return value and the name of the handler-unavailable
exception. -/
lemma add_agree {α : Type} (ipr : Char → Bool) (c : Client α) (st : Store)
    (i : Int) (p : PyStr) (v : Int) :
    LtvServiceApi.add_customer ipr c st i p v =
      renameUnavailable ((LtvService.add_customer ipr c st i p v).map
        (fun st2 => (st2, i))) := by
  by_cases hne : p = []
  · rw [LtvServiceApi.add_customer, LtvService.add_customer, hne,
      phoneNumber_empty ipr, except_bind_error, except_bind_error]
    rfl
  · by_cases hall : p.all ipr = true
    · by_cases hi : i < 1
      · rw [LtvServiceApi.add_customer, LtvService.add_customer,
          phoneNumber_ok ipr p hne hall, except_bind_ok, except_bind_ok,
          customerID_err i hi, except_bind_error, except_bind_error]
        rfl
      · by_cases hv : v < 0
        · rw [LtvServiceApi.add_customer, LtvService.add_customer,
            phoneNumber_ok ipr p hne hall, except_bind_ok, except_bind_ok,
            customerID_ok i (by omega), except_bind_ok, except_bind_ok,
            ltv_err v hv, except_bind_error, except_bind_error]
          rfl
        · by_cases hcn : c.conn = some true
          · rw [LtvServiceApi.add_customer, LtvService.add_customer,
              phoneNumber_ok ipr p hne hall, except_bind_ok, except_bind_ok,
              customerID_ok i (by omega), except_bind_ok, except_bind_ok,
              ltv_ok v (by omega), except_bind_ok, except_bind_ok,
              LtvServiceApi.add_customer_impl, LtvService.add_customer_impl,
              api_handler_ok c hcn, service_handler_ok c hcn,
              except_bind_ok, except_bind_ok]
            simp [Except.map]
          · rw [LtvServiceApi.add_customer, LtvService.add_customer,
              phoneNumber_ok ipr p hne hall, except_bind_ok, except_bind_ok,
              customerID_ok i (by omega), except_bind_ok, except_bind_ok,
              ltv_ok v (by omega), except_bind_ok, except_bind_ok,
              LtvServiceApi.add_customer_impl, LtvService.add_customer_impl,
              api_handler_unavail c hcn, service_handler_unavail c hcn,
              except_bind_error, except_bind_error]
            simp [Except.map, renameUnavailable_chu]
    · rw [LtvServiceApi.add_customer, LtvService.add_customer,
        phoneNumber_nonprintable ipr p hne (by simpa using hall),
        except_bind_error, except_bind_error]
      rfl

/-- Claim C4 counterexample: on a client whose connection has dropped, the
two files do not return the same result — `ltv_service.py` raises
`ClientHandlerUnavailable` while `ltv_service_api.py` raises
`AerospikeClientUnavailable`, so the claimed pointwise equality of the
read surface fails at this input. -/
theorem c4_counterexample :
    LtvService.get_ltv_by_id (⟨[], some false⟩ : Client Unit) [] 1 =
      .error .clientHandlerUnavailable ∧
    LtvServiceApi.get_ltv_by_id (⟨[], some false⟩ : Client Unit) [] 1 =
      .error .aerospikeClientUnavailable ∧
    LtvService.get_ltv_by_id (⟨[], some false⟩ : Client Unit) [] 1 ≠
      LtvServiceApi.get_ltv_by_id (⟨[], some false⟩ : Client Unit) [] 1 := by
  refine ⟨rfl, rfl, fun h => ?_⟩
  have h1 : LtvService.get_ltv_by_id (⟨[], some false⟩ : Client Unit) [] 1 =
      .error .clientHandlerUnavailable := rfl
  have h2 : LtvServiceApi.get_ltv_by_id (⟨[], some false⟩ : Client Unit) [] 1 =
      .error .aerospikeClientUnavailable := rfl
  rw [h1, h2] at h
  simp at h

/-- Claim C4 (amended): for every client, store state and input, the two
files' `get_ltv_by_id` and `get_ltv_by_phone` return the same result up to
renaming the handler-unavailable exception (`ClientHandlerUnavailable` in
`ltv_service.py`, `AerospikeClientUnavailable` in `ltv_service_api.py`),
and `add_customer` performs the same store write in both, the further
behavioral difference being only the return value (the written id versus
nothing). -/
theorem c4_files_agree_up_to_error_name (α : Type) (ipr : Char → Bool)
    (c : Client α) (st : Store) :
    (∀ i, LtvServiceApi.get_ltv_by_id c st i =
      renameUnavailable (LtvService.get_ltv_by_id c st i)) ∧
    (∀ p, LtvServiceApi.get_ltv_by_phone ipr c st p =
      renameUnavailable (LtvService.get_ltv_by_phone ipr c st p)) ∧
    (∀ i p v, LtvServiceApi.add_customer ipr c st i p v =
      renameUnavailable ((LtvService.add_customer ipr c st i p v).map
        (fun st2 => (st2, i)))) :=
  ⟨fun i => get_by_id_agree c st i,
   fun p => get_by_phone_agree ipr c st p,
   fun i p v => add_agree ipr c st i p v⟩
